import Mathlib

/-!
Verification of the `sv` repository's query-building, session-management and
migration helpers (`revopy.ds.postgresql`, `revopy.ds.manager`,
`revopy.ds.migration`, `apps.web.home`).

Python strings are modelled as Lean `String` (`List Char` data), Python values
that flow through the quoting helpers as the inductive `PyVal`, and raisable
Python exceptions as `Except PyErr`.
-/

/-- Python exceptions that the modelled code can raise. -/
inductive PyErr where
  | keyError (key : String)
  | indexError
  | typeError
  | valueError (msg : String)
  | attributeError (msg : String)
  | userWarning (args : List String)
  | interfaceError (msg : String)
  | zeroDivisionError
  deriving Repr, DecidableEq

/-- The apostrophe character (written via its code point). -/
def apos : String := ⟨[Char.ofNat 39]⟩

/-- Replace every non-overlapping occurrence of `pat` in `hay` by `rep`,
scanning left to right — the semantics of Python `str.replace` (for the
non-empty patterns used in this code base). -/
def replaceList (hay pat rep : List Char) : List Char :=
  match hay with
  | [] => []
  | c :: rest =>
    if h : pat ≠ [] ∧ pat.isPrefixOf (c :: rest) then
      rep ++ replaceList ((c :: rest).drop pat.length) pat rep
    else
      c :: replaceList rest pat rep
termination_by hay.length
decreasing_by
  · have hp : 1 ≤ pat.length := List.length_pos.mpr h.1
    simp only [List.length_drop, List.length_cons]
    omega
  · simp

/-- Python `s.replace(pat, rep)` on `String`. -/
def pyReplace (s pat rep : String) : String :=
  ⟨replaceList s.data pat.data rep.data⟩

/-- Does `pat` occur as a substring of `hay`?  (Python `pat in hay`.) -/
def containsSub (hay pat : List Char) : Bool :=
  match hay with
  | [] => pat.isPrefixOf []
  | _ :: rest => pat.isPrefixOf hay || containsSub rest pat

/-- Python `hay.index(pat)`: index of the first occurrence of `pat`,
`none` when absent (where Python raises `ValueError`). -/
def findSub (hay pat : List Char) : Option Nat :=
  match hay with
  | [] => if pat = [] then some 0 else none
  | _ :: rest =>
    if pat.isPrefixOf hay then some 0
    else (findSub rest pat).map (· + 1)

/-- Python `pat in hay` on `String`. -/
def strContains (hay pat : String) : Bool :=
  containsSub hay.data pat.data

/-- Python string `<` (lexicographic comparison by code point). -/
def pyStrLtList : List Char → List Char → Bool
  | [], [] => false
  | [], _ :: _ => true
  | _ :: _, [] => false
  | a :: as, b :: bs => if a = b then pyStrLtList as bs else decide (a.val < b.val)

/-- Python string `<` on `String`. -/
def pyStrLt (a b : String) : Bool := pyStrLtList a.data b.data

/-- Python string `<=` on `String`. -/
def pyStrLe (a b : String) : Bool := pyStrLt a b || a == b

/-- Model of the Python values the quoting helpers handle: strings, ints,
`None`, lists/tuples, and other objects (dates, …) represented by the string
`str(value)` produces for them. -/
inductive PyVal where
  | vstr (s : String)
  | vint (n : Int)
  | vnone
  | vlist (xs : List PyVal)
  | vother (strOf : String)

mutual

/-- An approximation of Python `str(value)`.  Only the scalar cases are ever
exercised by the claims (containers reach `quote` only through `quote_array`,
which quotes their elements individually). -/
def pyStr : PyVal → String
  | .vstr s => s
  | .vint n => toString n
  | .vnone => "None"
  | .vlist xs => "[" ++ String.intercalate ", " (pyStrEach xs) ++ "]"
  | .vother s => s

/-- `pyStr` applied to each element of a list. -/
def pyStrEach : List PyVal → List String
  | [] => []
  | x :: xs => pyStr x :: pyStrEach xs

end

/-- asyncpg `utils._quote_literal`: wrap in single quotes, doubling any
embedded single quote. -/
def quote_literal (s : String) : String :=
  apos ++ pyReplace s apos (apos ++ apos) ++ apos

/-- `revopy.ds.postgresql.quote` (postgresql.py lines 68-81). -/
def quote (field_value : PyVal) : String :=
  match field_value with
  | .vstr s => quote_literal s
  | .vnone => "NULL"
  | .vint n => toString n
  | v => quote_literal (pyStr v)

/-- `revopy.ds.postgresql.quote_array` (postgresql.py lines 84-102). -/
def quote_array (values : List PyVal) (wrap : Bool := true) : String :=
  let joined := String.intercalate "," (values.map quote)
  if wrap then apos ++ "\x7b" ++ joined ++ "\x7d" ++ apos
  else joined

/-- `revopy.ds.Placeholder`: a SQL fragment inlined verbatim, with optional
pyformat bind values interpolated (quoted) into it. -/
structure Placeholder where
  placeholder : String
  bind_values : List (String × PyVal)

/-- Quote one bind value of a placeholder: lists/tuples via `quote_array`,
anything else via `quote` (postgresql.py lines 110-115). -/
def quote_bind_value (v : PyVal) : String :=
  match v with
  | .vlist xs => quote_array xs
  | v => quote v

/-- `revopy.ds.postgresql.quote_placeholder` (postgresql.py lines 105-117).
The Python `%` dict interpolation is modelled as replacing each `%(key)s`
pattern in the placeholder text by the quoted bind value. -/
def quote_placeholder (p : Placeholder) : String :=
  if ¬ p.bind_values.isEmpty then
    p.bind_values.foldl
      (fun acc kv => pyReplace acc ("%(" ++ kv.1 ++ ")s") (quote_bind_value kv.2))
      p.placeholder
  else p.placeholder

/-- A value appearing in a row dict: either a plain value or a `Placeholder`
(`is_placeholder` dispatches between the two). -/
inductive RowVal where
  | val (v : PyVal)
  | ph (p : Placeholder)

/-- The loop of `pyformat_query_to_native` (postgresql.py lines 23-29):
thread the `$n` counter through the params, replacing `%(name)s` by `$n`
and collecting the values. -/
def pyformatLoop (query : String) (counter : Nat) :
    List (String × PyVal) → String × List PyVal
  | [] => (query, [])
  | (field_name, value) :: rest =>
    let new_query := pyReplace query ("%(" ++ field_name ++ ")s") ("$" ++ toString counter)
    let rec_result := pyformatLoop new_query (counter + 1) rest
    (rec_result.1, value :: rec_result.2)

/-- `revopy.ds.postgresql.pyformat_query_to_native` (postgresql.py 14-30). -/
def pyformat_query_to_native (query : String) (params : List (String × PyVal)) :
    String × List PyVal :=
  pyformatLoop query 1 params

/-- The loop of `generate_native_insert_query` (postgresql.py lines 159-166):
walk the row in insertion order; a `Placeholder` is inlined via
`quote_placeholder` and consumes no `$n` position, any other value becomes
the next `$counter` and is appended to the positional parameter list. -/
def insertLoop (counter : Nat) : List (String × RowVal) → List String × List PyVal
  | [] => ([], [])
  | (_, RowVal.ph p) :: rest =>
    let r := insertLoop counter rest
    (quote_placeholder p :: r.1, r.2)
  | (_, RowVal.val v) :: rest =>
    let r := insertLoop (counter + 1) rest
    (("$" ++ toString counter) :: r.1, v :: r.2)

/-- `revopy.ds.postgresql.generate_native_insert_query` (postgresql.py 148-167). -/
def generate_native_insert_query (table : String) (row : List (String × RowVal)) :
    String × List PyVal :=
  let r := insertLoop 1 row
  ("INSERT INTO " ++ table ++ " (" ++ String.intercalate "," (row.map Prod.fst) ++
     ") VALUES (" ++ String.intercalate "," r.1 ++ ")", r.2)

/-- Is a row entry a plain (non-`Placeholder`) value? -/
def isPlainVal (v : RowVal) : Bool :=
  match v with
  | .val _ => true
  | .ph _ => false

/-- Number of plain (non-`Placeholder`) values among the first `j` entries of
the row.  Used to state which `$n` position the `j`-th field receives. -/
def plainCount (row : List (String × RowVal)) (j : Nat) : Nat :=
  ((row.take j).filter (fun e => isPlainVal e.2)).length

/-- The positional parameters a row should produce, per the claim: the plain
values in field order, placeholders contributing nothing. -/
def specInsertParams (row : List (String × RowVal)) : List PyVal :=
  row.filterMap (fun e =>
    match e.2 with
    | .val v => some v
    | .ph _ => none)

/-- The `simple_ops` operator table of `_generate_filter`
(postgresql.py lines 222-238), in source order. -/
def simple_ops : List (String × Nat) :=
  [("=", 1), (">", 2), (">=", 3), ("<", 4), ("<=", 5), ("<>", 6), ("!=", 7),
   ("in", 8), ("not in", 9), ("between", 10), ("contain", 11), ("not contain", 12),
   ("overlap", 13), ("not overlap", 14), ("like", 15)]

/-- `op_position = simple_ops[op]` wrapped in `try ... except IndexError`
(postgresql.py lines 239-242).  A failed dict lookup raises `KeyError`; the
handler only matches `IndexError`, so the `UserWarning("Bad operation: %s")`
branch fires only if the lookup were ever to raise `IndexError`. -/
def op_position_lookup (op : String) : Except PyErr Nat :=
  let looked : Except PyErr Nat :=
    match simple_ops.lookup op with
    | some n => Except.ok n
    | none => Except.error (PyErr.keyError op)
  match looked with
  | Except.error PyErr.indexError => Except.error (PyErr.userWarning ["Bad operation: %s", op])
  | r => r

/-- Python `value[i]` for the values `_generate_filter` subscripts:
lists/tuples index into their elements, strings into their characters;
everything else raises `TypeError`. -/
def pySubscript (v : PyVal) (i : Nat) : Except PyErr PyVal :=
  match v with
  | .vlist xs =>
    if h : i < xs.length then Except.ok (xs.get ⟨i, h⟩)
    else Except.error PyErr.indexError
  | .vstr s =>
    if h : i < s.data.length then Except.ok (PyVal.vstr ⟨[s.data.get ⟨i, h⟩]⟩)
    else Except.error PyErr.indexError
  | _ => Except.error PyErr.typeError

/-- Python `quote_array(value)` applied to a raw value: lists/tuples quote
their elements; a `str` is itself iterable, so Python iterates its
characters and quotes each one-character string; iterating a non-iterable
(int, None, date, …) raises `TypeError`. -/
def quote_array_of (v : PyVal) : Except PyErr String :=
  match v with
  | .vlist xs => Except.ok (quote_array xs)
  | .vstr s => Except.ok (quote_array (s.data.map (fun c => PyVal.vstr ⟨[c]⟩)))
  | _ => Except.error PyErr.typeError

/-- `revopy.ds.postgresql._generate_filter` (postgresql.py lines 211-274).
`op = op or "="`; the operator position is looked up in `simple_ops` and the
fragment is assembled per operator family. -/
def _generate_filter (field : String) (value : PyVal) (op : Option String) :
    Except PyErr String :=
  let opv : String :=
    match op with
    | none => "="
    | some s => if s = "" then "=" else s
  match op_position_lookup opv with
  | Except.error e => Except.error e
  | Except.ok op_position =>
    if op_position < 8 then
      Except.ok (field ++ " " ++ opv ++ " " ++ quote value)
    else if op_position < 9 then
      match quote_array_of value with
      | Except.ok a => Except.ok (field ++ " = ANY(" ++ a ++ ")")
      | Except.error e => Except.error e
    else if op_position < 10 then
      match quote_array_of value with
      | Except.ok a => Except.ok (field ++ " != ALL(" ++ a ++ ")")
      | Except.error e => Except.error e
    else if op_position < 11 then
      match pySubscript value 0, pySubscript value 1 with
      | Except.ok v0, Except.ok v1 =>
        Except.ok (field ++ " BETWEEN " ++ quote v0 ++ " AND " ++ quote v1)
      | Except.error e, _ => Except.error e
      | _, Except.error e => Except.error e
    else if op_position < 12 then
      Except.ok (field ++ " @> " ++ quote value)
    else if op_position < 13 then
      Except.ok ("NOT (" ++ field ++ " @> " ++ quote value ++ ")")
    else if op_position < 14 then
      match value with
      | .vstr s =>
        if ¬ strContains s "range(" then
          Except.error (PyErr.userWarning
            ["Bad value compared against the field %s: range function is required", field])
        else
          Except.ok (field ++ " && " ++ pyReplace s apos "")
      | _ =>
        Except.error (PyErr.userWarning
          ["Bad value compared against the field %s: string is required", field])
    else if op_position < 15 then
      match value with
      | .vstr s =>
        if ¬ strContains s "range(" then
          Except.error (PyErr.userWarning
            ["Bad value compared against the field %s: range function is required", field])
        else
          Except.ok ("NOT (" ++ field ++ " && " ++ pyReplace s apos "" ++ ")")
      | _ =>
        Except.error (PyErr.userWarning
          ["Bad value compared against the field %s: string is required", field])
    else
      Except.ok (field ++ " LIKE " ++ quote value)

/-! ## Session manager and `supervise` (manager.py, postgresql.py 577-627)

The database and pool are external; their effects are recorded as a trace of
`DbEvent`s.  The session state mirrors `SessionManager.__init__`: an optional
connection (with its `is_closed` flag) and an optional transaction handle. -/

/-- Observable pool/connection/transaction effects. -/
inductive DbEvent where
  | acquire
  | release
  | txStart
  | txCommit
  | txRollback
  deriving Repr, DecidableEq

/-- The `SessionManager` fields the claims concern: `self.connection`
(`some isClosed` when held) and `self.transaction` (`true` when a transaction
object has been created). -/
structure PgSession where
  connection : Option Bool
  transaction : Bool
  deriving Repr, DecidableEq

/-- `SessionManager.start` (postgresql.py 595-611): raises if a connection is
already held, otherwise acquires an open pooled connection. -/
def SessionManager.start (st : PgSession) : Except PyErr (PgSession × List DbEvent) :=
  match st.connection with
  | some _ =>
    Except.error (PyErr.userWarning ["The use of initialize() caused leaked connection"])
  | none =>
    Except.ok ({ st with connection := some false }, [DbEvent.acquire])

/-- `SessionManager.start_transaction` (postgresql.py 613-616): creates a
transaction on the connection and starts it.  This is the effect the
coroutine has *when awaited*. -/
def SessionManager.start_transaction (st : PgSession) : PgSession × List DbEvent :=
  ({ st with transaction := true }, [DbEvent.txStart])

/-- `SessionManager.close` (postgresql.py 618-626): optionally release the
connection back to the pool, then clear both fields. -/
def SessionManager.close (st : PgSession) (rel : Bool := true) : PgSession × List DbEvent :=
  ((⟨none, false⟩ : PgSession), if rel then [DbEvent.release] else [])

/-- `supervise.__aenter__` (manager.py lines 37-55).  `session.start` is
awaited; then, when `transactional` is true, line 50 reads
`self.session.start_transaction()` — *without* `await`.  The coroutine object
is created and immediately discarded, never executed, so neither the session
state nor the database changes; the embedding therefore performs no
transaction effect there. -/
def supervise_aenter (_transactional : Bool) (st : PgSession) :
    Except PyErr (PgSession × List DbEvent) :=
  match SessionManager.start st with
  | Except.error e => Except.error e
  | Except.ok (st1, ev1) => Except.ok (st1, ev1)

/-- Result of `supervise.__aexit__`: the session state, the emitted events,
an exception raised by `__aexit__` itself (if any), and whether the method
returned a truthy value (it never does — `False`/`None` only, so a body
exception always propagates). -/
structure AexitResult where
  state : PgSession
  events : List DbEvent
  raised : Option PyErr
  suppress : Bool
  deriving Repr, DecidableEq

/-- `supervise.__aexit__` (manager.py lines 57-86), translated clause by
clause.  Accessing `.rollback`/`.commit` on `self.session.transaction` when
no transaction object exists raises `AttributeError`, which the surrounding
`except BaseException` swallows after closing the session. -/
def supervise_aexit (transactional : Bool) (excPresent : Bool) (st : PgSession) :
    AexitResult :=
  if excPresent then
    -- try: (lines 58-68) — body exception branch
    if st.connection = some true then
      let c := SessionManager.close st false
      ⟨c.1, c.2, none, false⟩
    else if transactional ∧ ¬ st.transaction then
      -- `self.session.transaction.rollback()` on `None` → AttributeError,
      -- caught by `except BaseException` (line 69): close and return False
      let c := SessionManager.close st
      ⟨c.1, c.2, none, false⟩
    else
      let rb := if transactional then [DbEvent.txRollback] else []
      let c := SessionManager.close st
      ⟨c.1, rb ++ c.2, none, false⟩
  else
    -- lines 74-78
    if st.connection = some true ∧ transactional then
      let c := SessionManager.close st false
      ⟨c.1, c.2, some (PyErr.interfaceError "Unable to commit because connection was closed"), false⟩
    else
      -- try: (lines 79-86)
      if transactional ∧ ¬ st.transaction then
        -- `self.session.transaction.commit()` on `None` → AttributeError,
        -- caught by `except BaseException` (line 83): close and return False
        let c := SessionManager.close st
        ⟨c.1, c.2, none, false⟩
      else
        let cm := if transactional then [DbEvent.txCommit] else []
        let c := SessionManager.close st
        ⟨c.1, cm ++ c.2, none, false⟩

/-- Outcome of a full `async with supervise(...)` block. -/
inductive SuperviseOutcome where
  | completed
  | bodyExcPropagated
  | raisedInExit (e : PyErr)
  | raisedInEnter (e : PyErr)
  deriving Repr, DecidableEq

/-- A full pass through `async with supervise(session, transactional=...)`
on a fresh session, with a body that either succeeds or raises: the events
that reach the pool/database, and how the block ends. -/
def supervise_run (transactional : Bool) (bodyRaises : Bool) :
    List DbEvent × SuperviseOutcome :=
  match supervise_aenter transactional (⟨none, false⟩ : PgSession) with
  | Except.error e => ([], SuperviseOutcome.raisedInEnter e)
  | Except.ok (st1, ev1) =>
    let r := supervise_aexit transactional bodyRaises st1
    let outcome :=
      match r.raised with
      | some e => SuperviseOutcome.raisedInExit e
      | none =>
        if bodyRaises ∧ ¬ r.suppress then SuperviseOutcome.bodyExcPropagated
        else SuperviseOutcome.completed
    (ev1 ++ r.events, outcome)

/-! ## `fetch_value` and `_execute_and_fetch` (postgresql.py 661-677, 908-928) -/

/-- `SessionManager._execute_and_fetch` (postgresql.py 908-928): the
statement is executed through the connection protocol, whose
`bind_execute` resolves to a list of `asyncpg.Record`s (possibly empty,
never `None`); the method returns that list unchanged.  The embedding takes
the driver's record list as a parameter and wraps it as the Python list
value the caller receives. -/
def _execute_and_fetch (driver_result : List PyVal) : PyVal :=
  PyVal.vlist driver_result

/-- Is this Python value `None`? -/
def isNoneVal (v : PyVal) : Bool :=
  match v with
  | .vnone => true
  | _ => false

/-- What `fetch_value` can hand back: the `revopy.ds.Null` sentinel
("no such row") or a first-column value. -/
inductive FetchValueResult where
  | nullSentinel
  | value (v : PyVal)

/-- `SessionManager.fetch_value` (postgresql.py 661-677): convert pyformat
params when truthy, run the query, return `Null()` when the result is
`None`, else `ret[0][0]`. -/
def fetch_value (query : String) (params : Option (List (String × PyVal)))
    (driver_result : List PyVal) : Except PyErr FetchValueResult :=
  let _sent : String × List PyVal :=
    match params with
    | some ps => if ps.isEmpty then (query, []) else pyformat_query_to_native query ps
    | none => (query, [])
  let ret := _execute_and_fetch driver_result
  if isNoneVal ret then Except.ok FetchValueResult.nullSentinel
  else
    match pySubscript ret 0 with
    | Except.error e => Except.error e
    | Except.ok r0 =>
      match pySubscript r0 0 with
      | Except.error e => Except.error e
      | Except.ok c => Except.ok (FetchValueResult.value c)

/-! ## `fetch_by_page` (postgresql.py 694-728) -/

/-- A result row as a dict (field name → value). -/
def PyRow : Type := List (String × PyVal)

/-- Python `dict.update` for one key: replace the value in place if the key
exists, else append. -/
def assocSet (l : List (String × PyVal)) (k : String) (v : PyVal) :
    List (String × PyVal) :=
  match l with
  | [] => [(k, v)]
  | (k', v') :: rest => if k' = k then (k, v) :: rest else (k', v') :: assocSet rest k v

/-- Python dict truthiness of the optional `params` argument. -/
def paramsTruthy (params : Option (List (String × PyVal))) : Bool :=
  match params with
  | none => false
  | some ps => ¬ ps.isEmpty

/-- The `COUNT` query built on line 704: everything from the first `FROM`
(at index `i`) onward, prefixed with the count projection. -/
def countQuery (query : String) (i : Nat) : String :=
  "SELECT COUNT(1) AS row_count " ++ (⟨query.data.drop i⟩ : String)

/-- `math.ceil(float(row_count) / rows_per_page)` (line 714), as the exact
integer ceiling (for a positive `rows_per_page`; Int `/` is floor division
there). -/
def maxPages (row_count rows_per_page : Int) : Int :=
  -((-row_count) / rows_per_page)

/-- The page clamping of lines 716-717: out-of-range pages become page 1. -/
def clampedPage (page max_pages : Int) : Int :=
  if page > max_pages ∨ page ≤ 0 then 1 else page

/-- `SessionManager.fetch_by_page` (postgresql.py 694-728).  The database is
abstracted as `db : query ↦ params ↦ rows` (the session's
`execute_and_fetch`); alongside the result, the embedding returns the log of
`(query, params)` pairs actually given to `execute_and_fetch`, so that which
queries ran — and with which `offset` binding — is visible. -/
def fetch_by_page (query : String) (page : Int) (rows_per_page : Int)
    (params : Option (List (String × PyVal)))
    (db : String → Option (List (String × PyVal)) → List PyRow) :
    Except PyErr (List PyRow × Int) × List (String × Option (List (String × PyVal))) :=
  match findSub query.data "FROM".data with
  | none => (Except.error (PyErr.userWarning ["Missing FROM in the provided query"]), [])
  | some i =>
    let q := countQuery query i
    let countParams := if paramsTruthy params then params else none
    let ret := db q countParams
    let log1 := [(q, countParams)]
    match ret.get? 0 with
    | none => (Except.error PyErr.indexError, log1)
    | some row0 =>
      match List.lookup "row_count" row0 with
      | none => (Except.error (PyErr.keyError "row_count"), log1)
      | some (PyVal.vint row_count) =>
        if row_count = 0 then (Except.ok ([], 0), log1)
        else if rows_per_page = 0 then (Except.error PyErr.zeroDivisionError, log1)
        else
          let max_pages : Int := maxPages row_count rows_per_page
          let page1 := clampedPage page max_pages
          let ps := params.getD []
          let offset := rows_per_page * (page1 - 1)
          let query2 := query ++ " LIMIT %(rows_per_page)s OFFSET %(offset)s"
          if ¬ ps.isEmpty then
            let ps' := assocSet (assocSet ps "rows_per_page" (PyVal.vint rows_per_page))
              "offset" (PyVal.vint offset)
            (Except.ok (db query2 (some ps'), row_count), log1 ++ [(query2, some ps')])
          else
            (Except.ok (db query2 none, row_count), log1 ++ [(query2, none)])
      | some _ => (Except.error PyErr.typeError, log1)

/-! ## HTTP route handlers (apps/web/home.py)

Exceptions raised while a handler runs are modelled as `Except String`, the
`String` being `str(error)`.  Each handler is translated as a function of
the outcome of the code its `try` block (or, absent one, its whole body)
would produce. -/

/-- An HTTP response: status code and body text. -/
structure HttpResponse where
  status_code : Nat
  body : String
  deriving Repr, DecidableEq

/-- `home` on route `/` (home.py lines 19-29): no try/except at all — an
exception raised by the body (config lookup, response construction)
propagates out of the handler. -/
def route_home_root (body : Except String HttpResponse) : Except String HttpResponse :=
  match body with
  | Except.ok r => Except.ok r
  | Except.error e => Except.error e

/-- `home` on route `/home` (home.py lines 32-38): `try` around the body,
`except Exception as error: return Response(str(error), status_code=500)`. -/
def route_home_second (body : Except String HttpResponse) : HttpResponse :=
  match body with
  | Except.ok r => r
  | Except.error error => ⟨500, error⟩

/-- `test_connection` on route `/c` (home.py lines 41-54): `try` around the
body, `except Exception as error: return WebResponse(str(error), 500)`. -/
def route_c (body : Except String HttpResponse) : HttpResponse :=
  match body with
  | Except.ok r => r
  | Except.error error => ⟨500, error⟩

/-- `test_connection` on route `/c1` (home.py lines 57-82): same shape as
`/c`. -/
def route_c1 (body : Except String HttpResponse) : HttpResponse :=
  match body with
  | Except.ok r => r
  | Except.error error => ⟨500, error⟩

/-- `test_connection` on route `/c2` (home.py lines 85-557): on a body
exception, the handler formats the traceback (`tb1`, `tb2`), calls
`get_exception_details` (which may itself raise, line 552), and returns a
500 response either way (lines 543-557).  `tyName` is
`type(error).__name__`. -/
def route_c2 (body : Except String HttpResponse) (tyName tb1 tb2 : String)
    (details : Except String String) : HttpResponse :=
  match body with
  | Except.ok r => r
  | Except.error error =>
    match details with
    | Except.error e => ⟨500, e⟩
    | Except.ok e3 =>
      ⟨500, error ++ ":" ++ tyName ++ ">> \n" ++ tb1 ++ "\n\n" ++ tb2 ++ "\n\n" ++ e3⟩

/-- `show_product` on route `/product/<product_id>` (home.py lines 560-566):
no try/except — an exception from the body propagates. -/
def route_show_product (body : Except String HttpResponse) : Except String HttpResponse :=
  match body with
  | Except.ok r => Except.ok r
  | Except.error e => Except.error e

/-! ## Migration script loading (migration.py 162-211)

The migration directory listing is modelled as data: top-level entries (the
major-version folders) and their files.  Importing a script with
`SourceFileLoader(...).load_module()` is an I/O effect; the embedding records
which versions get imported, and collects `(version, changes)` exactly when
the imported module has a `changes` attribute. -/

/-- A file inside a major-version folder: its name, whether it is itself a
directory, and — for the module it would import — whether it defines
`changes` and what `getattr(mod, 'changes') or []` evaluates to. -/
structure ScriptFile where
  name : String
  isDir : Bool
  hasChangesAttr : Bool
  changes : List String

/-- A top-level entry of the migration directory. -/
structure MigrationDirEntry where
  name : String
  isDir : Bool
  files : List ScriptFile

/-- Python `s[:-3]`. -/
def stemOf (s : String) : String := ⟨s.data.take (s.data.length - 3)⟩

/-- Python `s[-3:]`. -/
def lastThree (s : String) : String := ⟨s.data.drop (s.data.length - 3)⟩

/-- The inner loop of `load_changes` over one major-version folder
(migration.py lines 184-210).  Returns the `(version, changes)` pairs added
to `ret` and, separately, the versions whose script file was imported. -/
def loadChangesFiles (previous_version current_version : Option String)
    (file_name : String) :
    List ScriptFile → List (String × List String) × List String
  | [] => ([], [])
  | f :: rest =>
    let r := loadChangesFiles previous_version current_version file_name rest
    if f.isDir then r
    else if f.name = "__init__.py" ∨ lastThree f.name ≠ ".py" then r
    else
      let loaded_version := file_name ++ "." ++ stemOf f.name
      let skip_old : Bool :=
        match previous_version with
        | some p => (p != "") && pyStrLe loaded_version p && (current_version != some p)
        | none => false
      let skip_new : Bool :=
        match current_version with
        | some c => (c != "") && pyStrLt c loaded_version
        | none => false
      if skip_old then r
      else if skip_new then r
      else if f.hasChangesAttr then
        ((loaded_version, f.changes) :: r.1, loaded_version :: r.2)
      else (r.1, loaded_version :: r.2)

/-- `revopy.ds.migration.load_changes` (migration.py 162-211): walk the
top-level folders, skipping non-directories, and process their files.  The
first component is the function's return value `ret`; the second lists every
version whose script is loaded (imported). -/
def load_changes (previous_version current_version : Option String) :
    List MigrationDirEntry → List (String × List String) × List String
  | [] => ([], [])
  | d :: rest =>
    let r := load_changes previous_version current_version rest
    if ¬ d.isDir then r
    else
      let inner := loadChangesFiles previous_version current_version d.name d.files
      (inner.1 ++ r.1, inner.2 ++ r.2)

/-- Spec-side (taken from the claim's words): the candidate scripts — files
of directory entries, not themselves directories, `.py` but not
`__init__.py` — as versions `d ++ "." ++ stem`. -/
def candidateVersions (listing : List MigrationDirEntry) : List String :=
  (listing.filter (fun d => d.isDir)).flatMap
    (fun d =>
      ((d.files.filter (fun f =>
          (!f.isDir) && (f.name != "__init__.py") && (lastThree f.name == ".py"))).map
        (fun f => d.name ++ "." ++ stemOf f.name)))

/-- Spec-side (taken from the claim's words): version `v` is selected iff it
is neither skipped as too old (previous version set, `v <=` previous, and
current ≠ previous) nor skipped as too new (current version set and
current `< v`), in lexicographic string order. -/
def specSelected (previous_version current_version : Option String) (v : String) : Bool :=
  let tooOld : Bool :=
    match previous_version with
    | some p => (p != "") && pyStrLe v p && (current_version != some p)
    | none => false
  let tooNew : Bool :=
    match current_version with
    | some c => (c != "") && pyStrLt c v
    | none => false
  (!tooOld) && (!tooNew)

/-! ## Migration CLI (migration.py 283-309) -/

/-- The kind and default of one argparse argument. -/
inductive ArgKind where
  | storeTrue (default : Bool)
  | stringArg (default : Option String)
  deriving Repr, DecidableEq

/-- One `parser.add_argument(...)` call: its flag strings, `dest`, and kind. -/
structure ArgDef where
  flags : List String
  dest : String
  kind : ArgKind
  deriving Repr, DecidableEq

/-- The six `add_argument` calls of `run` (migration.py lines 285-298), in
source order. -/
def migration_cli_args : List ArgDef :=
  [⟨["-v"], "verbose", ArgKind.storeTrue false⟩,
   ⟨["-d", "--dry_run"], "dry_run", ArgKind.storeTrue false⟩,
   ⟨["-f", "--migrate_from"], "migrate_from", ArgKind.stringArg none⟩,
   ⟨["-c", "--current_version"], "current_version", ArgKind.stringArg none⟩,
   ⟨["-s", "--stage"], "stage", ArgKind.stringArg (some "dev1")⟩,
   ⟨["-p", "--path"], "path", ArgKind.stringArg none⟩]

/-- The parsed namespace `cmd_args`. -/
structure CmdArgs where
  verbose : Bool
  dry_run : Bool
  migrate_from : Option String
  current_version : Option String
  stage : String
  path : Option String
  deriving Repr, DecidableEq

/-- The arguments `migrate` receives (migration.py 11-12): `env` is its
fourth positional parameter, which `run` fills with the parsed stage. -/
structure MigrateCall where
  table_name : String
  base_path : String
  env : String
  current_version : Option String
  migrate_from : Option String
  dry_run : Bool
  migration_dir : Option String
  verbose : Bool
  deriving Repr, DecidableEq

/-- The `migrate(...)` invocation in `run` (migration.py lines 301-309). -/
def run_migrate_call (migration_table : String) (current_dir : String)
    (cmd_args : CmdArgs) : MigrateCall :=
  { table_name := migration_table
    base_path := current_dir
    env := cmd_args.stage
    current_version := cmd_args.current_version
    migrate_from := cmd_args.migrate_from
    dry_run := cmd_args.dry_run
    migration_dir := cmd_args.path
    verbose := cmd_args.verbose }

/-- Is this Python value a `str`? -/
def isStringVal (v : PyVal) : Bool :=
  match v with
  | .vstr _ => true
  | _ => false

/-! ## Theorems -/

/-- Spec-side reading of the pyformat conversion: in the query, each key's
`%(k)s` pattern is replaced by `$i` where `i` is the key's 1-based position
in the dict, keys taken in insertion order. -/
def specPyformatQuery (query : String) (params : List (String × PyVal)) : String :=
  (List.enumFrom 1 params).foldl
    (fun acc e => pyReplace acc ("%(" ++ e.2.1 ++ ")s") ("$" ++ toString e.1)) query

theorem pyformatLoop_enumFrom (params : List (String × PyVal)) :
    ∀ (q : String) (c : Nat),
      pyformatLoop q c params =
        ((List.enumFrom c params).foldl
          (fun acc e => pyReplace acc ("%(" ++ e.2.1 ++ ")s") ("$" ++ toString e.1)) q,
         params.map Prod.snd) := by
  induction params with
  | nil => intro q c; simp [pyformatLoop, List.enumFrom]
  | cons kv rest ih =>
    intro q c
    obtain ⟨k, v⟩ := kv
    simp [pyformatLoop, List.enumFrom, ih]

/-- C1: `pyformat_query_to_native(query, params)` returns the query with each
key's `%(ki)s` placeholder replaced by the positional placeholder `$i` (`i`
the key's 1-based index in the dict, replacements applied in key order), and
the list of values `[v1, …, vn]` in that same key order. -/
theorem pyformat_query_to_native_spec (query : String) (params : List (String × PyVal)) :
    pyformat_query_to_native query params =
      (specPyformatQuery query params, params.map Prod.snd) := by
  simpa [pyformat_query_to_native, specPyformatQuery] using
    pyformatLoop_enumFrom params query 1

theorem plainCount_zero (row : List (String × RowVal)) : plainCount row 0 = 0 := by
  simp [plainCount]

theorem plainCount_cons (e : String × RowVal) (row : List (String × RowVal)) (j : Nat) :
    plainCount (e :: row) (j + 1) =
      (if isPlainVal e.2 then 1 else 0) + plainCount row j := by
  simp only [plainCount, List.take_succ_cons, List.filter_cons]
  split <;> simp [Nat.add_comm]

theorem insertLoop_params (row : List (String × RowVal)) :
    ∀ c : Nat, (insertLoop c row).2 = specInsertParams row := by
  induction row with
  | nil => intro c; simp [insertLoop, specInsertParams]
  | cons e rest ih =>
    intro c
    obtain ⟨f, v⟩ := e
    cases v with
    | ph p => simp [insertLoop, specInsertParams, ih c]
    | val x => simp [insertLoop, specInsertParams, ih (c + 1)]

theorem insertLoop_length (row : List (String × RowVal)) :
    ∀ c : Nat, (insertLoop c row).1.length = row.length := by
  induction row with
  | nil => intro c; simp [insertLoop]
  | cons e rest ih =>
    intro c
    obtain ⟨f, v⟩ := e
    cases v with
    | ph p => simp [insertLoop, ih c]
    | val x => simp [insertLoop, ih (c + 1)]

theorem insertLoop_getD (row : List (String × RowVal)) :
    ∀ (c j : Nat), j < row.length →
      (insertLoop c row).1.getD j "" =
        (match (row.getD j ("", RowVal.val PyVal.vnone)).2 with
         | RowVal.ph p => quote_placeholder p
         | RowVal.val _ => "$" ++ toString (plainCount row j + c)) := by
  induction row with
  | nil => intro c j h; simp at h
  | cons e rest ih =>
    intro c j h
    obtain ⟨f, v⟩ := e
    cases j with
    | zero =>
      cases v with
      | ph p => simp [insertLoop]
      | val x => simp [insertLoop, plainCount_zero]
    | succ j' =>
      have hj : j' < rest.length := by simpa using h
      cases v with
      | ph p =>
        have := ih c j' hj
        simpa [insertLoop, plainCount_cons, isPlainVal] using this
      | val x =>
        have := ih (c + 1) j' hj
        simp only [insertLoop, List.getD_cons_succ, plainCount_cons, isPlainVal]
        rw [this]
        cases hm : (rest.getD j' ("", RowVal.val PyVal.vnone)).2 with
        | ph p => simp
        | val y => simp [Nat.add_comm, Nat.add_assoc, Nat.add_left_comm]

/-- C2: `generate_native_insert_query(table, row)` returns
`INSERT INTO table (fields) VALUES (placeholders)` with the field names in
dict insertion order, where the `j`-th placeholder is the inlined
`quote_placeholder` text for a `Placeholder` value and otherwise `$n` with
`n` = 1 + number of non-`Placeholder` fields before position `j`; the
positional parameter list is exactly the non-`Placeholder` values in field
order. -/
theorem generate_native_insert_query_spec (table : String)
    (row : List (String × RowVal)) (hrow : row ≠ []) :
    (generate_native_insert_query table row).2 = specInsertParams row ∧
    (generate_native_insert_query table row).1 =
      "INSERT INTO " ++ table ++ " (" ++ String.intercalate "," (row.map Prod.fst) ++
        ") VALUES (" ++ String.intercalate "," (insertLoop 1 row).1 ++ ")" ∧
    (insertLoop 1 row).1.length = row.length ∧
    (∀ j : Nat, j < row.length →
      (insertLoop 1 row).1.getD j "" =
        (match (row.getD j ("", RowVal.val PyVal.vnone)).2 with
         | RowVal.ph p => quote_placeholder p
         | RowVal.val _ => "$" ++ toString (plainCount row j + 1))) := by
  refine ⟨?_, rfl, insertLoop_length row 1, ?_⟩
  · exact insertLoop_params row 1
  · intro j hj
    exact insertLoop_getD row 1 j hj

/-- Witness for C2 at a concrete row mixing a plain value and a
`Placeholder`. -/
theorem generate_native_insert_query_spec_witness :
    ([("a", RowVal.val (PyVal.vint 5)),
      ("g", RowVal.ph ⟨"NOW()", []⟩),
      ("b", RowVal.val (PyVal.vstr "x"))] ≠
        ([] : List (String × RowVal))) ∧
    (generate_native_insert_query "t"
        [("a", RowVal.val (PyVal.vint 5)),
         ("g", RowVal.ph ⟨"NOW()", []⟩),
         ("b", RowVal.val (PyVal.vstr "x"))]).2 =
      specInsertParams
        [("a", RowVal.val (PyVal.vint 5)),
         ("g", RowVal.ph ⟨"NOW()", []⟩),
         ("b", RowVal.val (PyVal.vstr "x"))] :=
  ⟨by simp,
   (generate_native_insert_query_spec "t"
      [("a", RowVal.val (PyVal.vint 5)),
       ("g", RowVal.ph ⟨"NOW()", []⟩),
       ("b", RowVal.val (PyVal.vstr "x"))] (by simp)).1⟩

/-- C3: `_generate_filter` maps each operator of the vocabulary to exactly
one SQL fragment: a missing operator behaves as `=`; the comparison
operators `=, >, >=, <, <=, <>, !=` yield `field op quote(value)`; `in`
yields `= ANY(quote_array(value))`, `not in` yields `!= ALL(quote_array(value))`;
`between` uses `quote(value[0])`/`quote(value[1])`; `contain`/`not contain`
yield the `@>` fragment and its negation; `overlap`/`not overlap` demand a
string value containing `"range("` (`UserWarning` otherwise) and yield the
`&&` fragment (single quotes stripped) or its negation; `like` yields
`field LIKE quote(value)`. -/
theorem generate_filter_cases (f : String) (v : PyVal) :
    (_generate_filter f v none = _generate_filter f v (some "=")) ∧
    (∀ op ∈ ["=", ">", ">=", "<", "<=", "<>", "!="],
      _generate_filter f v (some op) = Except.ok (f ++ " " ++ op ++ " " ++ quote v)) ∧
    (∀ xs : List PyVal, _generate_filter f (PyVal.vlist xs) (some "in") =
      Except.ok (f ++ " = ANY(" ++ quote_array xs ++ ")")) ∧
    (∀ xs : List PyVal, _generate_filter f (PyVal.vlist xs) (some "not in") =
      Except.ok (f ++ " != ALL(" ++ quote_array xs ++ ")")) ∧
    (∀ (a b : PyVal) (rest : List PyVal),
      _generate_filter f (PyVal.vlist (a :: b :: rest)) (some "between") =
        Except.ok (f ++ " BETWEEN " ++ quote a ++ " AND " ++ quote b)) ∧
    (_generate_filter f v (some "contain") = Except.ok (f ++ " @> " ++ quote v)) ∧
    (_generate_filter f v (some "not contain") =
      Except.ok ("NOT (" ++ f ++ " @> " ++ quote v ++ ")")) ∧
    (∀ s : String, strContains s "range(" = true →
      _generate_filter f (PyVal.vstr s) (some "overlap") =
        Except.ok (f ++ " && " ++ pyReplace s apos "")) ∧
    (∀ s : String, strContains s "range(" = false →
      _generate_filter f (PyVal.vstr s) (some "overlap") =
        Except.error (PyErr.userWarning
          ["Bad value compared against the field %s: range function is required", f])) ∧
    (∀ w : PyVal, isStringVal w = false →
      _generate_filter f w (some "overlap") =
        Except.error (PyErr.userWarning
          ["Bad value compared against the field %s: string is required", f])) ∧
    (∀ s : String, strContains s "range(" = true →
      _generate_filter f (PyVal.vstr s) (some "not overlap") =
        Except.ok ("NOT (" ++ f ++ " && " ++ pyReplace s apos "" ++ ")")) ∧
    (∀ s : String, strContains s "range(" = false →
      _generate_filter f (PyVal.vstr s) (some "not overlap") =
        Except.error (PyErr.userWarning
          ["Bad value compared against the field %s: range function is required", f])) ∧
    (∀ w : PyVal, isStringVal w = false →
      _generate_filter f w (some "not overlap") =
        Except.error (PyErr.userWarning
          ["Bad value compared against the field %s: string is required", f])) ∧
    (_generate_filter f v (some "like") = Except.ok (f ++ " LIKE " ++ quote v)) := by
  refine ⟨?_, ?_, ?_, ?_, ?_, ?_, ?_, ?_, ?_, ?_, ?_, ?_, ?_, ?_⟩
  · simp [_generate_filter, op_position_lookup, simple_ops, List.lookup]
  · intro op hop
    fin_cases hop <;> simp [_generate_filter, op_position_lookup, simple_ops, List.lookup]
  · intro xs
    simp [_generate_filter, op_position_lookup, simple_ops, List.lookup, quote_array_of]
  · intro xs
    simp [_generate_filter, op_position_lookup, simple_ops, List.lookup, quote_array_of]
  · intro a b rest
    simp [_generate_filter, op_position_lookup, simple_ops, List.lookup, pySubscript]
  · simp [_generate_filter, op_position_lookup, simple_ops, List.lookup]
  · simp [_generate_filter, op_position_lookup, simple_ops, List.lookup]
  · intro s hs
    simp [_generate_filter, op_position_lookup, simple_ops, List.lookup, hs]
  · intro s hs
    simp [_generate_filter, op_position_lookup, simple_ops, List.lookup, hs]
  · intro w hw
    cases w <;> simp_all [_generate_filter, op_position_lookup, simple_ops, List.lookup, isStringVal]
  · intro s hs
    simp [_generate_filter, op_position_lookup, simple_ops, List.lookup, hs]
  · intro s hs
    simp [_generate_filter, op_position_lookup, simple_ops, List.lookup, hs]
  · intro w hw
    cases w <;> simp_all [_generate_filter, op_position_lookup, simple_ops, List.lookup, isStringVal]
  · simp [_generate_filter, op_position_lookup, simple_ops, List.lookup]

/-- Witness for C3: the `overlap` case at a concrete field and range value. -/
theorem generate_filter_cases_witness :
    strContains "int4range(80, 90)" "range(" = true ∧
    _generate_filter "weight" (PyVal.vstr "int4range(80, 90)") (some "overlap") =
      Except.ok ("weight" ++ " && " ++ pyReplace "int4range(80, 90)" apos "") :=
  ⟨by decide,
   (generate_filter_cases "weight" PyVal.vnone).2.2.2.2.2.2.2.1 "int4range(80, 90)" (by decide)⟩

theorem op_position_lookup_error (op : String) (e : PyErr)
    (h : op_position_lookup op = Except.error e) : e = PyErr.keyError op := by
  unfold op_position_lookup at h
  cases hl : List.lookup op simple_ops <;> rw [hl] at h <;> simp_all

set_option maxHeartbeats 1000000 in
/-- C8: an operator outside `simple_ops` makes the dict lookup raise
`KeyError`, which propagates unchanged — the `except IndexError` handler
never matches it — and the `UserWarning("Bad operation: %s")` branch is
unreachable for every input. -/
theorem generate_filter_unknown_op_keyerror :
    (∀ (f : String) (v : PyVal) (op : String), op ≠ "" →
      List.lookup op simple_ops = none →
      _generate_filter f v (some op) = Except.error (PyErr.keyError op)) ∧
    (∀ (f : String) (v : PyVal) (o : Option String) (tail : List String),
      _generate_filter f v o ≠
        Except.error (PyErr.userWarning ("Bad operation: %s" :: tail))) := by
  constructor
  · intro f v op hne hl
    simp [_generate_filter, op_position_lookup, hne, hl]
  · intro f v o tail
    simp only [_generate_filter]
    cases hpos : op_position_lookup
        (match o with | none => "=" | some s => if s = "" then "=" else s) with
    | error e =>
      have he := op_position_lookup_error _ _ hpos
      subst he
      simp
    | ok n =>
      cases v <;> simp only [quote_array_of, pySubscript] <;> repeat' split
      all_goals simp_all [dite_eq_iff, @eq_comm PyErr]

/-- Witness for C8 at the concrete unknown operator `"regex"`. -/
theorem generate_filter_unknown_op_keyerror_witness :
    ("regex" ≠ "" ∧ List.lookup "regex" simple_ops = none) ∧
    _generate_filter "age" (PyVal.vint 3) (some "regex") =
      Except.error (PyErr.keyError "regex") :=
  ⟨⟨by decide, by decide⟩,
   generate_filter_unknown_op_keyerror.1 "age" (PyVal.vint 3) "regex"
     (by decide) (by decide)⟩

/-- C4 (code bug evidence): a full `async with supervise(session,
transactional=True)` pass acquires and releases a pooled connection but
never starts, commits, or rolls back any transaction, because
`__aenter__` (manager.py line 50) calls `start_transaction()` without
`await`: the session's transaction stays `None`, and `__aexit__`'s
`transaction.commit()` / `transaction.rollback()` accesses raise
`AttributeError`, swallowed by its `except BaseException` handlers. -/
theorem supervise_transactional_no_transaction :
    supervise_run true false =
      ([DbEvent.acquire, DbEvent.release], SuperviseOutcome.completed) ∧
    supervise_run true true =
      ([DbEvent.acquire, DbEvent.release], SuperviseOutcome.bodyExcPropagated) ∧
    DbEvent.txStart ∉ (supervise_run true false).1 ∧
    DbEvent.txCommit ∉ (supervise_run true false).1 ∧
    DbEvent.txRollback ∉ (supervise_run true true).1 ∧
    (supervise_aenter true (⟨none, false⟩ : PgSession)).map (fun r => r.1.transaction) =
      Except.ok false ∧
    (SessionManager.start_transaction
        (⟨some false, false⟩ : PgSession)).2 = [DbEvent.txStart] := by
  refine ⟨by decide, by decide, by decide, by decide, by decide, rfl, rfl⟩

/-- C5 counterexample: the `/` handler (`home`, home.py 19-29) has no
`except` clause — a raised exception propagates out instead of producing a
500 response. -/
theorem route_home_root_uncaught :
    route_home_root (Except.error "connection refused") =
      Except.error "connection refused" ∧
    route_home_root (Except.error "connection refused") ≠
      Except.ok ⟨500, "connection refused"⟩ := by
  constructor
  · rfl
  · simp [route_home_root]

/-- C5 (amended): the handlers for `/home`, `/c`, `/c1` and `/c2` catch
broad exceptions and return a 500 response whose body contains the
stringified exception (for `/c2`, the stringified exception followed by the
traceback, or the inner exception text if `get_exception_details` fails);
the `/` and `/product/<id>` handlers have no exception handling and let
exceptions propagate. -/
theorem handlers_error_behavior (e tyName tb1 tb2 d : String) :
    route_home_second (Except.error e) = ⟨500, e⟩ ∧
    route_c (Except.error e) = ⟨500, e⟩ ∧
    route_c1 (Except.error e) = ⟨500, e⟩ ∧
    (route_c2 (Except.error e) tyName tb1 tb2 (Except.ok d)).status_code = 500 ∧
    (∃ rest : String,
      (route_c2 (Except.error e) tyName tb1 tb2 (Except.ok d)).body = e ++ rest) ∧
    route_c2 (Except.error e) tyName tb1 tb2 (Except.error d) = ⟨500, d⟩ ∧
    route_home_root (Except.error e) = Except.error e ∧
    route_show_product (Except.error e) = Except.error e := by
  refine ⟨rfl, rfl, rfl, rfl, ⟨?_, ?_⟩, rfl, rfl, rfl⟩
  · exact ":" ++ tyName ++ ">> \n" ++ tb1 ++ "\n\n" ++ tb2 ++ "\n\n" ++ d
  · simp [route_c2, String.append_assoc]

/-- C9: `fetch_value` can never produce the `Null` sentinel, because
`_execute_and_fetch` always hands back a Python list (never `None`), so the
`ret is None` branch is dead; on an empty result set, `ret[0][0]` raises
`IndexError` instead. -/
theorem fetch_value_never_null :
    (∀ (q : String) (params : Option (List (String × PyVal))) (rows : List PyVal),
      fetch_value q params rows ≠ Except.ok FetchValueResult.nullSentinel) ∧
    (∀ rows : List PyVal, _execute_and_fetch rows = PyVal.vlist rows) ∧
    (∀ rows : List PyVal, isNoneVal (_execute_and_fetch rows) = false) ∧
    (∀ (q : String) (params : Option (List (String × PyVal))),
      fetch_value q params [] = Except.error PyErr.indexError) := by
  refine ⟨?_, fun rows => rfl, fun rows => rfl, ?_⟩
  · intro q params rows
    simp only [fetch_value, _execute_and_fetch, isNoneVal]
    repeat' split
    all_goals simp_all
  · intro q params
    simp [fetch_value, _execute_and_fetch, isNoneVal, pySubscript]

theorem loadChangesFiles_loaded (prev cur : Option String) (d : String)
    (files : List ScriptFile) :
    (loadChangesFiles prev cur d files).2 =
      ((files.filter (fun f =>
          (!f.isDir) && (f.name != "__init__.py") && (lastThree f.name == ".py"))).map
        (fun f => d ++ "." ++ stemOf f.name)).filter (specSelected prev cur) := by
  induction files with
  | nil => simp [loadChangesFiles]
  | cons f rest ih =>
    simp only [loadChangesFiles]
    repeat' split
    all_goals try simp_all [specSelected]
    all_goals
      rename_i hdir hor
      rcases hor with h | h <;> simp_all

/-- C6: a script in directory `d` with stem `f` (version `v = d ++ "." ++ f`)
is loaded by `load_changes(previous_version, current_version, path)` iff it
is not skipped as too old (previous version set, `v <=` previous, current ≠
previous — so scripts reload when previous = current) and not skipped as too
new (current version set and current `< v`), comparisons being lexicographic
string order. -/
theorem load_changes_loaded_spec (prev cur : Option String)
    (listing : List MigrationDirEntry) :
    (load_changes prev cur listing).2 =
      (candidateVersions listing).filter (specSelected prev cur) := by
  induction listing with
  | nil => simp [load_changes, candidateVersions]
  | cons d rest ih =>
    by_cases hd : d.isDir
    · simp [load_changes, candidateVersions, hd, ih, loadChangesFiles_loaded,
        List.filter_append]
    · simp [load_changes, candidateVersions, hd, ih]

/-- C7: the migration CLI defines exactly the flags `-v` and `--dry_run`
(with short form `-d`; both `store_true`, default `False`), `--migrate_from`
(`-f`), `--current_version` (`-c`), `--path` (`-p`) (strings, default
`None`) and `--stage` (`-s`; string, default `dev1`), and `run` forwards the parsed
values to `migrate` as its env (stage), current_version, migrate_from,
dry_run, migration_dir and verbose arguments. -/
theorem migration_cli_spec :
    migration_cli_args.map ArgDef.flags =
      [["-v"], ["-d", "--dry_run"], ["-f", "--migrate_from"],
       ["-c", "--current_version"], ["-s", "--stage"], ["-p", "--path"]] ∧
    migration_cli_args.map ArgDef.dest =
      ["verbose", "dry_run", "migrate_from", "current_version", "stage", "path"] ∧
    migration_cli_args.map ArgDef.kind =
      [ArgKind.storeTrue false, ArgKind.storeTrue false, ArgKind.stringArg none,
       ArgKind.stringArg none, ArgKind.stringArg (some "dev1"), ArgKind.stringArg none] ∧
    ∀ (tbl dir : String) (cmd_args : CmdArgs),
      run_migrate_call tbl dir cmd_args =
        ⟨tbl, dir, cmd_args.stage, cmd_args.current_version, cmd_args.migrate_from,
          cmd_args.dry_run, cmd_args.path, cmd_args.verbose⟩ :=
  ⟨rfl, rfl, rfl, fun _ _ _ => rfl⟩

theorem lookup_assocSet (l : List (String × PyVal)) (k : String) (v : PyVal) :
    List.lookup k (assocSet l k v) = some v := by
  induction l with
  | nil => simp [assocSet, List.lookup]
  | cons kv rest ih =>
    obtain ⟨k', v'⟩ := kv
    by_cases h : k' = k
    · simp [assocSet, h, List.lookup]
    · simp only [assocSet, if_neg h, List.lookup]
      have : (k == k') = false := by
        simp [Ne.symm h]
      simp [this, ih]

theorem maxPages_bounds (rc rpp : Int) (hrpp : 0 < rpp) :
    rc ≤ rpp * maxPages rc rpp ∧ rpp * maxPages rc rpp - rpp < rc := by
  have hmod := Int.emod_nonneg (-rc) (ne_of_gt hrpp)
  have hlt := Int.emod_lt_of_pos (-rc) hrpp
  have heq := Int.ediv_add_emod (-rc) rpp
  unfold maxPages
  rw [mul_neg]
  constructor <;> linarith

set_option maxHeartbeats 1000000 in
/-- C10: `fetch_by_page` raises `UserWarning` when the query contains no
`FROM`; when the counted row_count is 0 it returns `([], 0)` without running
the paged query; when row_count > 0, a requested page outside
`1 ≤ page ≤ ceil(row_count / rows_per_page)` is replaced by page 1, so the
`OFFSET` bound into the appended
`LIMIT %(rows_per_page)s OFFSET %(offset)s` clause always equals
`rows_per_page * (page - 1)` for a page within that range
(`maxPages` is that exact ceiling, as the bracketing conjuncts state). -/
theorem fetch_by_page_spec :
    (∀ (query : String) (page rpp : Int) (params : Option (List (String × PyVal)))
       (db : String → Option (List (String × PyVal)) → List PyRow),
      findSub query.data "FROM".data = none →
      fetch_by_page query page rpp params db =
        (Except.error (PyErr.userWarning ["Missing FROM in the provided query"]), [])) ∧
    (∀ (query : String) (page rpp : Int) (params : Option (List (String × PyVal)))
       (db : String → Option (List (String × PyVal)) → List PyRow)
       (i : Nat) (row0 : List (String × PyVal)),
      findSub query.data "FROM".data = some i →
      (db (countQuery query i) (if paramsTruthy params then params else none)).get? 0 =
        some row0 →
      List.lookup "row_count" row0 = some (PyVal.vint 0) →
      fetch_by_page query page rpp params db =
        (Except.ok ([], 0),
         [(countQuery query i, if paramsTruthy params then params else none)])) ∧
    (∀ (query : String) (page rpp : Int) (params : Option (List (String × PyVal)))
       (db : String → Option (List (String × PyVal)) → List PyRow)
       (i : Nat) (row0 : List (String × PyVal)) (rc : Int),
      0 < rpp → 1 ≤ rc →
      findSub query.data "FROM".data = some i →
      (db (countQuery query i) (if paramsTruthy params then params else none)).get? 0 =
        some row0 →
      List.lookup "row_count" row0 = some (PyVal.vint rc) →
      1 ≤ clampedPage page (maxPages rc rpp) ∧
      clampedPage page (maxPages rc rpp) ≤ maxPages rc rpp ∧
      (1 ≤ page ∧ page ≤ maxPages rc rpp → clampedPage page (maxPages rc rpp) = page) ∧
      rc ≤ rpp * maxPages rc rpp ∧ rpp * maxPages rc rpp - rpp < rc ∧
      (fetch_by_page query page rpp params db).2 =
        [(countQuery query i, if paramsTruthy params then params else none),
         (query ++ " LIMIT %(rows_per_page)s OFFSET %(offset)s",
          if (params.getD []).isEmpty then none
          else some (assocSet (assocSet (params.getD []) "rows_per_page" (PyVal.vint rpp))
            "offset" (PyVal.vint (rpp * (clampedPage page (maxPages rc rpp) - 1)))))] ∧
      List.lookup "offset"
          (assocSet (assocSet (params.getD []) "rows_per_page" (PyVal.vint rpp))
            "offset" (PyVal.vint (rpp * (clampedPage page (maxPages rc rpp) - 1)))) =
        some (PyVal.vint (rpp * (clampedPage page (maxPages rc rpp) - 1)))) := by
  refine ⟨?_, ?_, ?_⟩
  · intro query page rpp params db h
    simp [fetch_by_page, h]
  · intro query page rpp params db i row0 hF h0 hlk
    simp only [List.get?_eq_getElem?] at h0
    simp [fetch_by_page, hF, h0, hlk]
  · intro query page rpp params db i row0 rc hrpp hrc hF h0 hlk
    simp only [List.get?_eq_getElem?] at h0
    have hb := maxPages_bounds rc rpp hrpp
    have hmp : 1 ≤ maxPages rc rpp := by nlinarith [hb.1]
    have h1 : ¬ rc = 0 := by omega
    have h2 : ¬ rpp = 0 := by omega
    refine ⟨?_, ?_, ?_, hb.1, hb.2, ?_, lookup_assocSet _ _ _⟩
    · unfold clampedPage
      split <;> omega
    · unfold clampedPage
      split <;> omega
    · intro hin
      unfold clampedPage
      split
      · omega
      · rfl
    · by_cases hps : (params.getD []).isEmpty <;>
        simp [fetch_by_page, hF, h0, hlk, h1, h2, hps]

/-- Witness for C10: a concrete 25-row result paged 10 per page, requested
page 9 (out of range). -/
theorem fetch_by_page_spec_witness :
    (0 : Int) < 10 ∧ (1 : Int) ≤ 25 ∧
    1 ≤ clampedPage 9 (maxPages 25 10) ∧
    clampedPage 9 (maxPages 25 10) ≤ maxPages 25 10 := by
  have h := fetch_by_page_spec.2.2 "SELECT x FROM t" 9 10 (some [("a", PyVal.vint 1)])
    (fun _ _ => [[("row_count", PyVal.vint 25)]]) 9 [("row_count", PyVal.vint 25)] 25
    (by decide) (by decide) (by decide) (by rfl) (by rfl)
  exact ⟨by decide, by decide, h.1, h.2.1⟩
